import Mathlib

/-!
Verification model of the Hubspace Home Assistant integration
(custom_components/hubspace): the device state model and translation layer.

The embedding follows the newer raw-dict-indexed implementation
(hubspace_entity.py, hubspace_coordinator.py, light.py, fan.py, switch.py)
together with the older hubspace.py device model where a claim refers to it.
Vendor JSON values are modelled by the inductive `HVal`; dictionaries from
the vendor payload are modelled as ordered association lists with
Python-dict update semantics (updating an existing key keeps its position).
Machine integers appearing here are nonnegative device quantities
(percent 0..100, brightness 0..255, Kelvin labels), so Nat with floor
division faithfully models Python int arithmetic with `//` on them.
-/

namespace HubspaceModel

/-- A vendor JSON scalar as it appears in a `value` field: a string,
a (nonnegative) integer, or a boolean. -/
inductive HVal where
  | s (v : String)
  | i (n : Nat)
  | b (v : Bool)
  deriving DecidableEq, Repr

/-- One entry of `state.values[]` from the vendor listing, keeping the fields
the code reads: `functionClass`, `functionInstance` and `value`
(each may be absent in the raw JSON). -/
structure StateVal where
  functionClass : Option String
  functionInstance : Option String
  value : Option HVal
  deriving DecidableEq, Repr

/-- One entry of `description.functions[]`: `functionClass`,
`functionInstance`, and the list of the `name` fields of its `values`
(the code reads only `value.get("name")` from each values entry). -/
structure FunctionDesc where
  functionClass : Option String
  functionInstance : Option String
  values : List String
  deriving DecidableEq, Repr

/-- One raw device record, keeping the fields the claims read:
`id`, `deviceId`, `description.device.deviceClass`,
`description.functions`, and `state` (absent when the record carries no
`state` key; `some vs` models a state dict whose `values` list is `vs`). -/
structure DeviceData where
  id : Option String
  deviceId : Option String
  deviceClass : Option String
  functions : List FunctionDesc
  state : Option (List StateVal)
  deriving DecidableEq, Repr

/-- Modelled from the spec: `const.FunctionClass.UNSUPPORTED`, the str-enum
fallback used by `HubspaceFunctionKeyedObject.function_class` when the
`functionClass` key is absent (const.py is not under src/). -/
def unsupportedClass : String := "unsupported"

/-- `HubspaceFunctionKeyedObject.function_class` for a state value:
`self._data.get(FUNCTION_CLASS, FunctionClass.UNSUPPORTED)`. -/
def svClass (sv : StateVal) : String :=
  sv.functionClass.getD unsupportedClass

/-- `HubspaceFunctionKeyedObject.function_class` for a function descriptor. -/
def fdClass (f : FunctionDesc) : String :=
  f.functionClass.getD unsupportedClass

/-- Python-dict insert: updating an existing key keeps its position,
a new key is appended at the end. -/
def dictInsert [DecidableEq K] (k : K) (v : V) : List (K × V) → List (K × V)
  | [] => [(k, v)]
  | (k1, v1) :: rest =>
      if k1 = k then (k, v) :: rest else (k1, v1) :: dictInsert k v rest

/-- Python-dict lookup (`d.get(k)`). -/
def dictGet [DecidableEq K] (k : K) : List (K × V) → Option V
  | [] => none
  | (k1, v1) :: rest => if k1 = k then some v1 else dictGet k rest

/-- The two-level state index `self._states`:
function class to (function instance to state value), both Python dicts. -/
abbrev StatesIdx := List (String × List (Option String × StateVal))

/-- The two-level function index `self._functions`. -/
abbrev FunsIdx := List (String × List (Option String × FunctionDesc))

/-- One step of `HubspaceEntity._set_state`: index one state value under
(function class, function instance), skipping unsupported classes. -/
def setStateStep (idx : StatesIdx) (sv : StateVal) : StatesIdx :=
  if svClass sv = unsupportedClass then idx
  else
    let inner := (dictGet (svClass sv) idx).getD []
    dictInsert (svClass sv) (dictInsert sv.functionInstance sv inner) idx

/-- `HubspaceEntity._set_state` applied to a `state.values` list:
builds the two-level index in order. -/
def setStates (values : List StateVal) : StatesIdx :=
  values.foldl setStateStep []

/-- `HubspaceEntity.functions` indexing step (no unsupported filter there). -/
def funStep (idx : FunsIdx) (f : FunctionDesc) : FunsIdx :=
  let inner := (dictGet (fdClass f) idx).getD []
  dictInsert (fdClass f) (dictInsert f.functionInstance f inner) idx

/-- `HubspaceEntity.functions`: index every function descriptor. -/
def buildFunctions (fs : List FunctionDesc) : FunsIdx :=
  fs.foldl funStep []

/-- `light._brightness_to_hass`: `int(value * 255) // 100`. -/
def brightnessToHass (v : Nat) : Nat := v * 255 / 100

/-- `light._brightness_to_hubspace`: `value * 100 // 255`. -/
def brightnessToHubspace (v : Nat) : Nat := v * 100 / 255

/-- Python truthiness of a vendor scalar (`bool(raw)`). -/
def pyTruthy : HVal → Bool
  | .s v => v ≠ ""
  | .i n => n ≠ 0
  | .b v => v

/-- `HubspaceStateValue.hass_value`: AVAILABLE decodes through `bool(raw)`
(with `bool(None) = False` when the value is absent); everything else
passes the raw value through. -/
def baseHassValue (sv : StateVal) : Option HVal :=
  if svClass sv = "available" then
    some (.b (pyTruthy ((sv.value).getD (.b false))))
  else sv.value

/-- `HubspaceLightStateValue.hass_value`: BRIGHTNESS decodes through
`_brightness_to_hass` (the underlying Python arithmetic needs an integer
value, which is what the vendor reports for brightness); everything else
falls back to the base decoder. -/
def lightHassValue (sv : StateVal) : Option HVal :=
  if svClass sv = "brightness" then
    match sv.value with
    | some (.i n) => some (.i (brightnessToHass n))
    | _ => none
  else baseHassValue sv

/-- The inner dict for one function class
(`self.states.get(function_class, {})`). -/
def classEntries (idx : StatesIdx) (fc : String) :
    List (Option String × StateVal) :=
  (dictGet fc idx).getD []

/-- `HubspaceEntity._get_state_value` with a bare function-class key:
takes the first entry of the class dict if any (the found state object is
always truthy, so its decoded value is returned even when that is None),
and reports whether the more-than-one warning fired. -/
def getStateNoInst (hv : StateVal → Option HVal) (idx : StatesIdx)
    (fc : String) (default : Option HVal) : Option HVal × Bool :=
  match classEntries idx fc with
  | [] => (default, false)
  | e :: rest => (hv e.2, !rest.isEmpty)

/-- `HubspaceEntity._get_state_value` with a (class, instance) tuple key. -/
def getStateAt (hv : StateVal → Option HVal) (idx : StatesIdx)
    (fc : String) (inst : Option String) (default : Option HVal) :
    Option HVal :=
  match dictGet inst (classEntries idx fc) with
  | some sv => hv sv
  | none => default

/-- `HubspaceLight.is_on`:
`self._get_state_value(FunctionClass.POWER, STATE_OFF) == STATE_ON`. -/
def lightIsOn (idx : StatesIdx) : Bool :=
  (getStateNoInst lightHassValue idx "power" (some (.s "off"))).1
    = some (.s "on")

/-- `HubspaceLight.brightness`:
`self._get_state_value(FunctionClass.BRIGHTNESS)`. -/
def lightBrightness (idx : StatesIdx) : Option HVal :=
  (getStateNoInst lightHassValue idx "brightness" none).1

/-- The end-to-end example state of claim C1: one light device with
`power=on` and `brightness=50`. -/
def c1StateValues : List StateVal :=
  [ { functionClass := some "power", functionInstance := none,
      value := some (.s "on") },
    { functionClass := some "brightness", functionInstance := none,
      value := some (.i 50) } ]

/-- Decimal value of a digit character list (the effect of Python `int` on a
digit string, which is the only shape the device labels feed it). -/
def digitsVal (cs : List Char) : Nat :=
  cs.foldl (fun n c => n * 10 + (c.toNat - 48)) 0

/-- `HubspaceFanFunction._value_key` for FAN_SPEED: `int(value[-3:])`,
the numeric value of the last three characters of a label such as
"fan-speed-025". -/
def fanKey (v : String) : Nat :=
  digitsVal (v.data.drop (v.data.length - 3))

/-- The Kelvin number of a color-temperature label: `float(value[:-1])`,
the label with its trailing "K" stripped, read as a number. -/
def kelvinNum (v : String) : Nat :=
  digitsVal v.data.dropLast

/-- `light._color_temp_to_hass`:
`color_temperature_kelvin_to_mired(float(value[:-1]))`, that is
`math.floor(1000000 / kelvin)`. For the integer Kelvin labels the vendor
uses, the float division never rounds across an integer boundary, so Nat
floor division is exact. -/
def colorTempToHass (v : String) : Nat :=
  1000000 / kelvinNum v

/-- The ascending-by-fan-speed-number ordering used by Python
`values.sort(key=_value_key)` on a fan-speed descriptor. -/
def fanSpeedLe (a b : String) : Prop := fanKey a ≤ fanKey b

instance : DecidableRel fanSpeedLe := fun a b =>
  inferInstanceAs (Decidable (fanKey a ≤ fanKey b))

instance : IsTotal String fanSpeedLe := ⟨fun a b => Nat.le_total _ _⟩

instance : IsTrans String fanSpeedLe := ⟨fun _ _ _ => Nat.le_trans⟩

/-- The ascending-by-mired ordering used by Python
`values.sort(key=_value_key)` on a color-temperature descriptor: the key
is `_color_temp_to_hass`, so labels order by their mired conversion. -/
def miredLe (a b : String) : Prop := colorTempToHass a ≤ colorTempToHass b

instance : DecidableRel miredLe := fun a b =>
  inferInstanceAs (Decidable (colorTempToHass a ≤ colorTempToHass b))

instance : IsTotal String miredLe := ⟨fun a b => Nat.le_total _ _⟩

instance : IsTrans String miredLe := ⟨fun _ _ _ => Nat.le_trans⟩

/-- The default `HubspaceFunction._value_key` ordering: the label itself,
lexicographically. -/
def pyStrLe (a b : String) : Prop := a ≤ b

instance : DecidableRel pyStrLe := fun a b =>
  inferInstanceAs (Decidable (a ≤ b))

/-- `HubspaceFanFunction.values`: names of the descriptor value entries,
stably sorted ascending by `_value_key` (Python `list.sort(key=...)` is a
stable ascending sort, as is `List.insertionSort` with the
key-below-or-equal relation). -/
def fanValuesOf (f : FunctionDesc) : List String :=
  if fdClass f = "fan-speed" then List.insertionSort fanSpeedLe f.values
  else List.insertionSort pyStrLe f.values

/-- `HubspaceLightFunction.values`: sorted by the mired conversion for
color-temperature descriptors, lexicographically otherwise. -/
def lightValuesOf (f : FunctionDesc) : List String :=
  if fdClass f = "color-temperature" then List.insertionSort miredLe f.values
  else List.insertionSort pyStrLe f.values

/-- `HubspaceEntity._get_function_values` with a bare function-class key:
the first descriptor indexed under the class, if any, exposing its sorted
values; the default (`None`) otherwise. -/
def getFunValuesNoInst (valuesOf : FunctionDesc → List String)
    (fns : FunsIdx) (fc : String) : Option (List String) :=
  match (dictGet fc fns).getD [] with
  | [] => none
  | e :: _ => some (valuesOf e.2)

/-- Modelled from the spec:
`homeassistant.util.percentage.ordered_list_item_to_percentage` is a host
helper external to this repository; the spec fixes the mapping as
`index/(count-1)*100` over the ordered labels, with the rounding pinned
by its own example value 33. Absent items have no percentage (the host
helper treats them as an error). -/
def orderedListItemToPercentage (l : List String) (item : String) :
    Option Nat :=
  (l.findIdx? (fun v => v = item)).map (fun i => i * 100 / (l.length - 1))

/-- Modelled from the spec:
`homeassistant.util.percentage.percentage_to_ordered_list_item` is a host
helper external to this repository; the spec specifies an inverse lookup
mapping a percentage back to the nearest ordered label. -/
def percentageToOrderedListItem (l : List String) (p : Nat) :
    Option String :=
  l[(p * (l.length - 1) + 50) / 100]?

/-- `HubspaceFan._fan_speed_values`: the sorted fan-speed labels with the
first (off) label removed; `None` when the class is absent or its value
list is empty. -/
def fanSpeedValues (fns : FunsIdx) : Option (List String) :=
  match getFunValuesNoInst fanValuesOf fns "fan-speed" with
  | some l => if l.isEmpty then none else some (l.drop 1)
  | none => none

/-- The fan state lookup inside `HubspaceFan.percentage`:
`self._get_state_value(FunctionClass.FAN_SPEED)` (fan uses the base state
value decoding). -/
def fanStateSpeed (idx : StatesIdx) : Option HVal :=
  (getStateNoInst baseHassValue idx "fan-speed" none).1

/-- `HubspaceFan.percentage`: `ordered_list_item_to_percentage` over the
non-off labels when `_fan_speed_values` is truthy, `None` otherwise. -/
def fanPercentage (fns : FunsIdx) (idx : StatesIdx) : Option Nat :=
  match fanSpeedValues fns with
  | some vals =>
      if vals.isEmpty then none
      else
        match fanStateSpeed idx with
        | some (.s item) => orderedListItemToPercentage vals item
        | _ => none
  | none => none

/-- `HubspaceLight.min_mireds`: the mired conversion of the first sorted
color-temperature label; `none` models the fallback to the host default
when the class is absent or empty. -/
def lightMinMireds (fns : FunsIdx) : Option Nat :=
  match getFunValuesNoInst lightValuesOf fns "color-temperature" with
  | some (v :: _) => some (colorTempToHass v)
  | _ => none

/-- `HubspaceLight.max_mireds`: the mired conversion of the last sorted
color-temperature label (`hubspace_values[-1]`); `none` models the
fallback to the host default. -/
def lightMaxMireds (fns : FunsIdx) : Option Nat :=
  match getFunValuesNoInst lightValuesOf fns "color-temperature" with
  | some l => l.getLast?.map colorTempToHass
  | none => none

/-- The fan-speed descriptor of claim C4, with its raw value-entry names. -/
def c4Desc (vals : List String) : FunctionDesc :=
  { functionClass := some "fan-speed", functionInstance := some "fan-speed",
    values := vals }

/-- The color-temperature descriptor of claim C7. -/
def ctDesc (vals : List String) : FunctionDesc :=
  { functionClass := some "color-temperature", functionInstance := none,
    values := vals }

/-- The fan-speed state value of claim C4: the device reports
state fan-speed-050. -/
def c4State : StateVal :=
  { functionClass := some "fan-speed", functionInstance := some "fan-speed",
    value := some (.s "fan-speed-050") }

/-- Modelled from the spec: `utils.count_key_value` (utils.py is not under
src/), as called by `switch.get_indexed_toggle_count`: the number of
function descriptors whose `functionClass` field equals
`FunctionClass.TOGGLE`. -/
def countToggleFunctions (fns : List FunctionDesc) : Nat :=
  (fns.filter (fun f => f.functionClass = some "toggle")).length

/-- `switch.get_indexed_toggle_count`: for a power-outlet device the
toggle-class descriptor count, `None` for every other device class. -/
def getIndexedToggleCount (d : DeviceData) : Option Nat :=
  if d.deviceClass = some "power-outlet" then
    some (countToggleFunctions d.functions)
  else none

/-- `switch.async_setup_entry` restricted to one device of the switches
list: the created switch entities as (device index, outlet index) pairs.
Python `range(1, toggle_count + 1)` is the list 1..toggle_count. -/
def switchEntitiesFor (idx : String) (d : DeviceData) :
    List (String × Option Nat) :=
  match getIndexedToggleCount d with
  | none => [(idx, none)]
  | some n =>
      if n = 1 then [(idx, none)]
      else (List.range n).map (fun i => (idx, some (i + 1)))

/-- Python f-string rendering of the optional parent id
(`None` prints as "None"). -/
def pyOptStr : Option String → String
  | some s => s
  | none => "None"

/-- `HubspaceSwitch.unique_id`: the parent unique id (`self.id`) when the
entity has no outlet index, otherwise the parent id, an underscore and the
index. -/
def switchUniqueId (d : DeviceData) (index : Option Nat) : Option String :=
  match index with
  | none => d.id
  | some i => some (pyOptStr d.id ++ "_" ++ toString i)

/-- A power-outlet device record carrying no toggle-class descriptors. -/
def outletNoToggles : DeviceData :=
  { id := some "dev1", deviceId := some "dev1",
    deviceClass := some "power-outlet", functions := [], state := none }

/-- A toggle-class function descriptor named by its instance. -/
def toggleDesc (inst : String) : FunctionDesc :=
  { functionClass := some "toggle", functionInstance := some inst,
    values := [] }

/-- A power-outlet device record with three toggle-class descriptors. -/
def outlet3 : DeviceData :=
  { id := some "o3", deviceId := some "o3",
    deviceClass := some "power-outlet",
    functions := [toggleDesc "outlet-1", toggleDesc "outlet-2",
      toggleDesc "outlet-3"],
    state := none }

/-- The mutable view an entity keeps between coordinator notifications:
`self._data` and the lazily built `self._states` cache (`none` models a
cache that was never built). -/
structure EntityView where
  data : DeviceData
  statesCache : Option StatesIdx
  deriving DecidableEq, Repr

/-- `HubspaceEntity.states`: when the cache is falsy (never built, or the
empty dict), `_set_state(self._data.get("state"))` rebuilds it from the
current raw data if that data carries a truthy state; the property then
returns the cache (`none` models the Python `None` of a device whose raw
record has no state). -/
def statesOf (e : EntityView) : Option StatesIdx :=
  match e.statesCache with
  | none => e.data.state.map setStates
  | some st =>
      if st.isEmpty then
        match e.data.state with
        | some vs => some (setStates vs)
        | none => some st
      else some st

/-- `HubspaceEntity.force_load_state_from_data`:
`_set_state(self._data.get("state"))`, which reassigns the cache only when
the raw data carries a truthy state. -/
def forceLoadState (e : EntityView) : EntityView :=
  match e.data.state with
  | some vs => { e with statesCache := some (setStates vs) }
  | none => e

/-- `HubspaceFan._handle_coordinator_update` and
`HubspaceLight._handle_coordinator_update`: only
`self._data = self.coordinator.data[self._idx]`; the states cache is left
as it is. -/
def updateFanOrLightData (e : EntityView) (newData : DeviceData) :
    EntityView :=
  { e with data := newData }

/-- `HubspaceSwitch._handle_coordinator_update`: replaces `self._data` and
then calls `force_load_state_from_data`. -/
def updateSwitchData (e : EntityView) (newData : DeviceData) : EntityView :=
  forceLoadState { e with data := newData }

/-- `HubspaceFan.is_on` over a states index. -/
def fanIsOn (idx : StatesIdx) : Bool :=
  (getStateNoInst baseHassValue idx "power" (some (.s "off"))).1
    = some (.s "on")

/-- `HubspaceFan.is_on` read through the entity view. -/
def fanIsOnView (e : EntityView) : Option Bool :=
  (statesOf e).map fanIsOn

/-- `HubspaceSwitch.is_on` over a states index: the toggle class, read at
instance `outlet-index` when the entity has an outlet index. -/
def switchIsOnIdx (index : Option Nat) (idx : StatesIdx) : Bool :=
  match index with
  | none =>
      (getStateNoInst baseHassValue idx "toggle" (some (.s "off"))).1
        = some (.s "on")
  | some i =>
      getStateAt baseHassValue idx "toggle" (some ("outlet-" ++ toString i))
          (some (.s "off"))
        = some (.s "on")

/-- `HubspaceSwitch.is_on` read through the entity view. -/
def switchIsOnView (index : Option Nat) (e : EntityView) : Option Bool :=
  (statesOf e).map (switchIsOnIdx index)

/-- The previous-poll state of the claim C3 fan: power off. -/
def fanOldVals : List StateVal :=
  [{ functionClass := some "power", functionInstance := none,
     value := some (.s "off") }]

/-- The fresh-poll state of the claim C3 fan: power on. -/
def fanNewVals : List StateVal :=
  [{ functionClass := some "power", functionInstance := none,
     value := some (.s "on") }]

/-- The claim C3 fan raw record before the refresh. -/
def fanOldData : DeviceData :=
  { id := some "f1", deviceId := some "f1", deviceClass := some "fan",
    functions := [], state := some fanOldVals }

/-- The claim C3 fan raw record delivered by the refresh. -/
def fanNewData : DeviceData :=
  { id := some "f1", deviceId := some "f1", deviceClass := some "fan",
    functions := [], state := some fanNewVals }

/-- The claim C3 fan entity just before the refresh notification: its
states cache was already built from the previous snapshot. -/
def fanEntity : EntityView :=
  { data := fanOldData, statesCache := some (setStates fanOldVals) }

/-- The previous-poll state of the claim C3 switch: toggle off. -/
def swOldVals : List StateVal :=
  [{ functionClass := some "toggle", functionInstance := none,
     value := some (.s "off") }]

/-- The fresh-poll state of the claim C3 switch: toggle on. -/
def swNewVals : List StateVal :=
  [{ functionClass := some "toggle", functionInstance := none,
     value := some (.s "on") }]

/-- The claim C3 switch raw record delivered by the refresh. -/
def swNewData : DeviceData :=
  { id := some "s1", deviceId := some "s1", deviceClass := some "switch",
    functions := [], state := some swNewVals }

/-- The claim C3 switch raw record before the refresh. -/
def swOldData : DeviceData :=
  { id := some "s1", deviceId := some "s1", deviceClass := some "switch",
    functions := [], state := some swOldVals }

/-- The claim C3 switch entity just before the refresh notification. -/
def swEntity : EntityView :=
  { data := swOldData, statesCache := some (setStates swOldVals) }

/-- `HubspaceFan.preset_mode`: scan every (class, instance) state entry in
insertion order; the first named toggle instance whose raw value is
"enabled" is the active preset; otherwise the literal "auto". -/
def presetMode (idx : StatesIdx) : String :=
  (idx.findSome? (fun p =>
    if p.1 = "toggle" then
      p.2.findSome? (fun q =>
        match q.1 with
        | some name =>
            if q.2.value = some (.s "enabled") then some name else none
        | none => none)
    else none)).getD "auto"

/-- One class of the `HubspaceFan.preset_modes` scan: named toggle
instances are appended in scan order. -/
def presetStep (acc : List String)
    (p : String × List (Option String × StateVal)) : List String :=
  if p.1 = "toggle" then acc ++ p.2.filterMap (fun q => q.1) else acc

/-- `HubspaceFan.preset_modes` before the "auto" insertion: every named
toggle instance of the states index, in scan order. -/
def presetModesBase (idx : StatesIdx) : List String :=
  idx.foldl presetStep []

/-- `HubspaceFan.preset_modes`: the named toggle instances, with "auto"
inserted at the front when any exist. -/
def presetModes (idx : StatesIdx) : List String :=
  if (presetModesBase idx).isEmpty then presetModesBase idx
  else "auto" :: presetModesBase idx

/-- Python `str` of a vendor scalar. -/
def pyStr : HVal → String
  | .s v => v
  | .i n => toString n
  | .b v => if v then "True" else "False"

/-- `HubspaceStateValue.set_hass_value`: AVAILABLE encodes through
`str(value)`, everything else stores the value as given. -/
def baseSetHassValue (sv : StateVal) (v : HVal) : StateVal :=
  if svClass sv = "available" then { sv with value := some (.s (pyStr v)) }
  else { sv with value := some v }

/-- In-place update of the state value stored under an instance key
(Python mutates the object found by `.get(key[1])`; keys are unique, so
updating the first occurrence is the same thing). -/
def setStatesInner (inst : Option String) (v : HVal) :
    List (Option String × StateVal) → List (Option String × StateVal)
  | [] => []
  | q :: rest =>
      if q.1 = inst then (q.1, baseSetHassValue q.2 v) :: rest
      else q :: setStatesInner inst v rest

/-- `HubspaceEntity._set_state_value` with a (class, instance) tuple key
for the base state value class: update the matching entry in place, a
no-op when the key is absent. -/
def setStateAt (idx : StatesIdx) (fc : String) (inst : Option String)
    (v : HVal) : StatesIdx :=
  match idx with
  | [] => []
  | p :: rest =>
      if p.1 = fc then (p.1, setStatesInner inst v p.2) :: rest
      else p :: setStateAt rest fc inst v

/-- The loop body of `set_preset_mode("auto")`: disable each listed mode
in order. -/
def foldDisable (modes : List String) (idx : StatesIdx) : StatesIdx :=
  modes.foldl
    (fun acc m => setStateAt acc "toggle" (some m) (.s "disabled")) idx

/-- `HubspaceFan.set_preset_mode` (without the trailing push to the
vendor): "auto" disables every derived preset mode in order; any other
name enables that toggle instance. -/
def setPresetMode (idx : StatesIdx) (mode : String) : StatesIdx :=
  if mode = "auto" then foldDisable (presetModes idx) idx
  else setStateAt idx "toggle" (some mode) (.s "enabled")

/-- The raw value stored under the named toggle instance, when that
instance is indexed. -/
def toggleRawValue (idx : StatesIdx) (name : String) :
    Option (Option HVal) :=
  (dictGet (some name) (classEntries idx "toggle")).map (fun sv => sv.value)

/-- The claim C5 example entries: Comfort disabled, Eco enabled. -/
def c5Values : List StateVal :=
  [ { functionClass := some "toggle", functionInstance := some "Comfort",
      value := some (.s "disabled") },
    { functionClass := some "toggle", functionInstance := some "Eco",
      value := some (.s "enabled") } ]

/-- The claim C5 all-disabled example entries. -/
def c5AllDisabled : List StateVal :=
  [ { functionClass := some "toggle", functionInstance := some "Comfort",
      value := some (.s "disabled") },
    { functionClass := some "toggle", functionInstance := some "Eco",
      value := some (.s "disabled") } ]

/-- The first of the two claim C6 entries: same class, no instance. -/
def c6First : StateVal :=
  { functionClass := some "power", functionInstance := none,
    value := some (.s "on") }

/-- The second of the two claim C6 entries: same class, no instance. -/
def c6Second : StateVal :=
  { functionClass := some "power", functionInstance := none,
    value := some (.s "off") }

/-- The Python exceptions appearing in the coordinator refresh path. -/
inductive PyErr where
  | clientError
  | timeoutError
  | typeErrorNotExcClass
  | updateFailed (msg : String)
  deriving DecidableEq, Repr

/-- The coordinator snapshot: device id to raw record
(`pull_coordinator_data` output). -/
abbrev Snapshot := List (String × DeviceData)

/-- Python try/except semantics: when the body raises and the except
clause names something that is not an exception class, evaluating the
match itself raises TypeError (catching classes that do not inherit from
BaseException is not allowed) instead of running the handler. -/
def pyTryExcept (body : Except PyErr α) (handlerIsExceptionClass : Bool)
    (handler : PyErr → Except PyErr α) : Except PyErr α :=
  match body with
  | .ok a => .ok a
  | .error e =>
      if handlerIsExceptionClass then handler e
      else .error .typeErrorNotExcClass

/-- `HubspaceCoordinator._async_update_data`: returns the fetched listing,
wrapped in `except any as err: raise UpdateFailed(...)`. The except clause
names the builtin function `any`, which is not an exception class. -/
def asyncUpdateData (fetch : Except PyErr Snapshot) :
    Except PyErr Snapshot :=
  pyTryExcept fetch false
    (fun _ => .error (.updateFailed "Error communicating with API"))

/-- Modelled from the spec: the host DataUpdateCoordinator refresh cycle
(external framework, specified at its interface in section 4.5): a
successful update replaces the snapshot wholesale; a raised error marks
the refresh failed and retains the previous snapshot. -/
structure CoordState where
  data : Snapshot
  lastUpdateSuccess : Bool
  deriving DecidableEq, Repr

/-- Modelled from the spec: one host-framework refresh step applied to the
result of `_async_update_data`. -/
def coordinatorRefresh (c : CoordState) (upd : Except PyErr Snapshot) :
    CoordState :=
  match upd with
  | .ok s => { data := s, lastUpdateSuccess := true }
  | .error _ => { c with lastUpdateSuccess := false }

/-- A reference to one `HubspaceRawDevice` instance. -/
abbrev DeviceRef := Nat

/-- The heap fragment behind `HubspaceRawDevice.children`: the single
class-level list object (`children: list[...] = []` at class scope) and
the per-instance own attribute. `__init__` never assigns `self.children`
(its last line is a bare `self`), so instances created by it carry no own
entry. -/
structure RawDeviceHeap where
  classChildren : List DeviceRef
  ownChildren : DeviceRef → Option (List DeviceRef)

/-- Python attribute lookup for `self.children`: the instance dict first,
falling back to the class attribute. -/
def childrenOf (h : RawDeviceHeap) (d : DeviceRef) : List DeviceRef :=
  (h.ownChildren d).getD h.classChildren

/-- `HubspaceRawDevice.addChild`: `self.children.append(device)` appends
in place to whichever list object the attribute lookup found. -/
def addChild (h : RawDeviceHeap) (d : DeviceRef) (c : DeviceRef) :
    RawDeviceHeap :=
  match h.ownChildren d with
  | some own =>
      { h with ownChildren := fun x =>
          if x = d then some (own ++ [c]) else h.ownChildren x }
  | none => { h with classChildren := h.classChildren ++ [c] }

/-- A heap with an empty class-level children list and two fresh
instances (none owning a children attribute). -/
def emptyHeap : RawDeviceHeap :=
  { classChildren := [], ownChildren := fun _ => none }

end HubspaceModel

namespace HubspaceModel

/-- Claim C1: brightness decoding is `hass = raw*255 // 100`, encoding is
`raw = hass*100 // 255`, and a light whose state holds power=on and
brightness=50 reports is_on = true and brightness = 127. -/
theorem claim_C1 :
    (∀ r : Nat, brightnessToHass r = r * 255 / 100) ∧
    (∀ h : Nat, brightnessToHubspace h = h * 100 / 255) ∧
    lightIsOn (setStates c1StateValues) = true ∧
    lightBrightness (setStates c1StateValues) = some (.i 127) := by
  refine ⟨fun r => rfl, fun h => rfl, ?_, ?_⟩ <;> rfl

/-- Claim C8: for every raw percent value 0..100 the brightness round trip
`encode (decode raw)` differs from `raw` by at most 1. -/
theorem claim_C8 :
    ∀ r : Nat, r < 101 →
      ((brightnessToHubspace (brightnessToHass r) : Int) - (r : Int)).natAbs
        ≤ 1 := by
  decide

/-- Witness for claim C8 at raw = 50. -/
theorem claim_C8_witness :
    ((brightnessToHubspace (brightnessToHass 50) : Int) - (50 : Int)).natAbs
      ≤ 1 :=
  claim_C8 50 (by decide)

/-- In a list pairwise-ordered by a Nat key, the key of the head is at most
the key of the last element. -/
theorem key_head_le_getLast {α : Type} (key : α → Nat) (v : α) (vs : List α)
    (h : List.Pairwise (fun a b => key a ≤ key b) (v :: vs)) (w : α)
    (hw : (v :: vs).getLast? = some w) : key v ≤ key w := by
  have hne : v :: vs ≠ [] := by simp
  have hlast : (v :: vs).getLast? = some ((v :: vs).getLast hne) :=
    List.getLast?_eq_getLast _ hne
  have hweq : w = (v :: vs).getLast hne := by
    rw [hlast] at hw
    exact (Option.some.injEq _ _).mp hw.symm
  subst hweq
  rcases List.mem_cons.mp (List.getLast_mem hne) with h1 | h2
  · rw [h1]
  · exact List.rel_of_pairwise_cons h h2

/-- Claim C4: with fan-speed labels sorting to
000/025/050/075/100, the off label is dropped, state fan-speed-050 maps
to percentage 33, and percentage 100 maps back to fan-speed-100. -/
theorem claim_C4 (vals : List String)
    (hsort : fanValuesOf (c4Desc vals) =
      ["fan-speed-000", "fan-speed-025", "fan-speed-050", "fan-speed-075",
        "fan-speed-100"]) :
    fanSpeedValues (buildFunctions [c4Desc vals]) =
        some ["fan-speed-025", "fan-speed-050", "fan-speed-075",
          "fan-speed-100"] ∧
      fanPercentage (buildFunctions [c4Desc vals]) (setStates [c4State])
          = some 33 ∧
      percentageToOrderedListItem
          ["fan-speed-025", "fan-speed-050", "fan-speed-075",
            "fan-speed-100"] 100 = some "fan-speed-100" := by
  have hg : getFunValuesNoInst fanValuesOf (buildFunctions [c4Desc vals])
      "fan-speed" = some (fanValuesOf (c4Desc vals)) := rfl
  have h1 : fanSpeedValues (buildFunctions [c4Desc vals]) =
      some ["fan-speed-025", "fan-speed-050", "fan-speed-075",
        "fan-speed-100"] := by
    unfold fanSpeedValues
    rw [hg, hsort]
    rfl
  refine ⟨h1, ?_, by rfl⟩
  unfold fanPercentage
  rw [h1]
  rfl

/-- Witness for claim C4 at a shuffled raw label list. -/
theorem claim_C4_witness :
    fanSpeedValues (buildFunctions [c4Desc
        ["fan-speed-050", "fan-speed-000", "fan-speed-100", "fan-speed-025",
          "fan-speed-075"]]) =
        some ["fan-speed-025", "fan-speed-050", "fan-speed-075",
          "fan-speed-100"] ∧
      fanPercentage (buildFunctions [c4Desc
          ["fan-speed-050", "fan-speed-000", "fan-speed-100",
            "fan-speed-025", "fan-speed-075"]])
          (setStates [c4State]) = some 33 ∧
      percentageToOrderedListItem
          ["fan-speed-025", "fan-speed-050", "fan-speed-075",
            "fan-speed-100"] 100 = some "fan-speed-100" :=
  claim_C4 _ (by rfl)

/-- Counterexample to claim C7 as stated: the exposed color-temperature
labels of the device are not in ascending stripped-Kelvin order; the sort
key is the mired conversion, which reverses the Kelvin order. -/
theorem claim_C7_cex :
    lightValuesOf (ctDesc ["3000K", "6500K"]) = ["6500K", "3000K"] ∧
      ¬ List.Pairwise (fun a b => kelvinNum a ≤ kelvinNum b)
        ["6500K", "3000K"] := by
  exact ⟨by rfl, by decide⟩

/-- Claim C7 amended: the exposed color-temperature labels are sorted
ascending by their mired conversion (hence descending by Kelvin), and the
bounds computed from the first and last sorted label satisfy
min_mireds at most max_mireds. -/
theorem claim_C7_amended (vals : List String) :
    List.Pairwise miredLe (lightValuesOf (ctDesc vals)) ∧
      ∀ a b, lightMinMireds (buildFunctions [ctDesc vals]) = some a →
        lightMaxMireds (buildFunctions [ctDesc vals]) = some b → a ≤ b := by
  have hval : lightValuesOf (ctDesc vals) =
      List.insertionSort miredLe vals := by
    unfold lightValuesOf
    rw [if_pos (show fdClass (ctDesc vals) = "color-temperature" from rfl)]
    rfl
  have hsorted : List.Pairwise miredLe (lightValuesOf (ctDesc vals)) := by
    rw [hval]
    exact List.sorted_insertionSort miredLe vals
  refine ⟨hsorted, fun a b ha hb => ?_⟩
  have hg : getFunValuesNoInst lightValuesOf (buildFunctions [ctDesc vals])
      "color-temperature" = some (lightValuesOf (ctDesc vals)) := rfl
  unfold lightMinMireds at ha
  unfold lightMaxMireds at hb
  rw [hg] at ha hb
  rcases hL : lightValuesOf (ctDesc vals) with _ | ⟨v, vs⟩
  · rw [hL] at ha
    have hnone : (none : Option Nat) = some a := ha
    exact absurd hnone (by simp)
  · rw [hL] at ha hb hsorted
    have ha2 : some (colorTempToHass v) = some a := ha
    have hav : a = colorTempToHass v := (Option.some.inj ha2).symm
    have hb2 : Option.map colorTempToHass (v :: vs).getLast? = some b := hb
    rcases hw : (v :: vs).getLast? with _ | w
    · rw [hw] at hb2
      have hnone : (none : Option Nat) = some b := hb2
      exact absurd hnone (by simp)
    · rw [hw] at hb2
      have hb3 : some (colorTempToHass w) = some b := hb2
      have hbw : b = colorTempToHass w := (Option.some.inj hb3).symm
      rw [hav, hbw]
      exact key_head_le_getLast colorTempToHass v vs hsorted w hw

/-- Witness for claim C7 amended, at labels 3000K and 6500K. -/
theorem claim_C7_witness :
    List.Pairwise miredLe (lightValuesOf (ctDesc ["3000K", "6500K"])) ∧
      (153 : Nat) ≤ 333 :=
  ⟨(claim_C7_amended ["3000K", "6500K"]).1,
    (claim_C7_amended ["3000K", "6500K"]).2 153 333 (by rfl) (by rfl)⟩

/-- Counterexample to claim C2 as stated: a power-outlet device whose
toggle-class descriptor count is 0 yields no switch entities at all,
rather than one. -/
theorem claim_C2_cex :
    getIndexedToggleCount outletNoToggles = some 0 ∧
      switchEntitiesFor "dev1" outletNoToggles = [] :=
  ⟨rfl, rfl⟩

/-- Claim C2 amended: a power-outlet device with exactly one toggle-class
descriptor yields one unsuffixed switch entity; with N greater than one it
yields N entities indexed 1..N with unique ids id_1 .. id_N; with zero
toggle-class descriptors it yields no switch entities. -/
theorem claim_C2_amended (idx : String) (d : DeviceData) (s : String)
    (hclass : d.deviceClass = some "power-outlet") (hid : d.id = some s) :
    (countToggleFunctions d.functions = 0 → switchEntitiesFor idx d = []) ∧
      (countToggleFunctions d.functions = 1 →
        switchEntitiesFor idx d = [(idx, none)] ∧
          switchUniqueId d none = some s) ∧
      (2 ≤ countToggleFunctions d.functions →
        (switchEntitiesFor idx d).length = countToggleFunctions d.functions ∧
          ∀ k, k < countToggleFunctions d.functions →
            (switchEntitiesFor idx d)[k]? = some (idx, some (k + 1)) ∧
              switchUniqueId d (some (k + 1)) =
                some (s ++ "_" ++ toString (k + 1))) := by
  have hcount : getIndexedToggleCount d =
      some (countToggleFunctions d.functions) := by
    unfold getIndexedToggleCount
    rw [if_pos hclass]
  have hent : switchEntitiesFor idx d =
      if countToggleFunctions d.functions = 1 then [(idx, none)]
      else (List.range (countToggleFunctions d.functions)).map
        (fun i => (idx, some (i + 1))) := by
    unfold switchEntitiesFor
    rw [hcount]
  refine ⟨fun h0 => ?_, fun h1 => ⟨?_, ?_⟩, fun h2 => ⟨?_, fun k hk => ⟨?_, ?_⟩⟩⟩
  · rw [hent, h0]
    rfl
  · rw [hent, h1]
    rfl
  · unfold switchUniqueId
    exact hid
  · rw [hent, if_neg (by omega)]
    simp
  · rw [hent, if_neg (by omega)]
    simp [List.getElem?_map, List.getElem?_range, hk]
  · simp [switchUniqueId, pyOptStr, hid]

/-- Witness for claim C2 amended at a power-outlet with three toggles. -/
theorem claim_C2_witness :
    (switchEntitiesFor "o3" outlet3).length =
        countToggleFunctions outlet3.functions ∧
      ∀ k, k < countToggleFunctions outlet3.functions →
        (switchEntitiesFor "o3" outlet3)[k]? = some ("o3", some (k + 1)) ∧
          switchUniqueId outlet3 (some (k + 1)) =
            some ("o3" ++ "_" ++ toString (k + 1)) :=
  (claim_C2_amended "o3" outlet3 "o3" (by rfl) (by rfl)).2.2 (by decide)

/-- Claim C3 is a code bug, evaluated here at its failing input: after the
refresh notification, the fan entity still reports the previous power
state (off) although the fresh snapshot decodes to on, because the fan and
light handlers replace only the raw data reference and keep the cached
states; the switch handler force-reloads and reports the fresh value. -/
theorem claim_C3 :
    fanIsOnView (updateFanOrLightData fanEntity fanNewData) = some false ∧
      fanIsOn (setStates fanNewVals) = true ∧
      switchIsOnView none (updateSwitchData swEntity swNewData)
        = some true := by
  refine ⟨rfl, rfl, rfl⟩

/-- Updating a state value under its own instance key: the lookup now
yields the updated entry. -/
theorem dictGet_setStatesInner_hit (inst : Option String) (v : HVal)
    (l : List (Option String × StateVal)) :
    dictGet inst (setStatesInner inst v l)
      = (dictGet inst l).map (fun sv => baseSetHassValue sv v) := by
  induction l with
  | nil => rfl
  | cons q rest ih =>
      obtain ⟨k1, sv1⟩ := q
      by_cases hk : k1 = inst
      · simp [setStatesInner, dictGet, hk]
      · simp [setStatesInner, dictGet, hk, ih]

/-- Updating a state value under one instance key leaves lookups of every
other instance key unchanged. -/
theorem dictGet_setStatesInner_other (inst inst2 : Option String)
    (hne : inst2 ≠ inst) (v : HVal)
    (l : List (Option String × StateVal)) :
    dictGet inst2 (setStatesInner inst v l) = dictGet inst2 l := by
  induction l with
  | nil => rfl
  | cons q rest ih =>
      obtain ⟨k1, sv1⟩ := q
      have hne2 : ¬ (inst = inst2) := fun hh => hne hh.symm
      by_cases hk : k1 = inst
      · subst hk
        simp [setStatesInner, dictGet, hne2]
      · by_cases hk2 : k1 = inst2
        · subst hk2
          simp [setStatesInner, dictGet, hk, hne, ih]
        · simp [setStatesInner, dictGet, hk, hk2, ih]

/-- The class dict of the written class after `_set_state_value` is the
in-place update of the previous class dict. -/
theorem classEntries_setStateAt (idx : StatesIdx) (fc : String)
    (inst : Option String) (v : HVal) :
    classEntries (setStateAt idx fc inst v) fc
      = setStatesInner inst v (classEntries idx fc) := by
  induction idx with
  | nil => rfl
  | cons p rest ih =>
      obtain ⟨k1, inner⟩ := p
      by_cases hk : k1 = fc
      · simp [setStateAt, classEntries, dictGet, hk]
      · simp only [setStateAt, if_neg hk]
        simp only [classEntries, dictGet, if_neg hk] at ih ⊢
        exact ih

/-- `baseSetHassValue` with a string payload always stores exactly that
string (Python `str` of a string is itself). -/
theorem baseSetHassValue_str (sv : StateVal) (x : String) :
    (baseSetHassValue sv (.s x)).value = some (.s x) := by
  unfold baseSetHassValue
  split <;> rfl

/-- Setting a present named toggle instance stores the written string. -/
theorem toggleRawValue_setStateAt_hit (idx : StatesIdx) (name x : String)
    (hpres : (dictGet (some name) (classEntries idx "toggle")).isSome) :
    toggleRawValue (setStateAt idx "toggle" (some name) (.s x)) name
      = some (some (.s x)) := by
  unfold toggleRawValue
  rw [classEntries_setStateAt, dictGet_setStatesInner_hit]
  rcases hD : dictGet (some name) (classEntries idx "toggle") with _ | sv
  · rw [hD] at hpres
    simp at hpres
  · simp [baseSetHassValue_str]

/-- Setting one named toggle instance leaves the raw value of every other
named instance unchanged. -/
theorem toggleRawValue_setStateAt_other (idx : StatesIdx)
    (name name2 : String) (hne : name2 ≠ name) (v : HVal) :
    toggleRawValue (setStateAt idx "toggle" (some name) v) name2
      = toggleRawValue idx name2 := by
  unfold toggleRawValue
  rw [classEntries_setStateAt,
    dictGet_setStatesInner_other _ _ (fun h => hne (Option.some.inj h))]

/-- Setting any named toggle instance preserves the presence of every
named instance. -/
theorem pres_setStateAt (idx : StatesIdx) (name name2 : String)
    (v : HVal)
    (hpres : (dictGet (some name2) (classEntries idx "toggle")).isSome) :
    (dictGet (some name2)
      (classEntries (setStateAt idx "toggle" (some name) v) "toggle")).isSome
      := by
  rw [classEntries_setStateAt]
  rcases eq_or_ne name2 name with heq | hne
  · subst heq
    rw [dictGet_setStatesInner_hit]
    simpa using hpres
  · rw [dictGet_setStatesInner_other _ _ (fun h => hne (Option.some.inj h))]
    exact hpres

/-- Folding the disable loop over a list of mode names disables every
present name in the list and touches no name outside it. -/
theorem foldDisable_spec (L : List String) (idx : StatesIdx)
    (name : String)
    (hpres : (dictGet (some name) (classEntries idx "toggle")).isSome) :
    (name ∈ L → toggleRawValue (foldDisable L idx) name
        = some (some (.s "disabled"))) ∧
      (name ∉ L → toggleRawValue (foldDisable L idx) name
        = toggleRawValue idx name) := by
  induction L generalizing idx with
  | nil =>
      exact ⟨fun h => absurd h (List.not_mem_nil _), fun _ => rfl⟩
  | cons m L ih =>
      have hstep : foldDisable (m :: L) idx
          = foldDisable L (setStateAt idx "toggle" (some m) (.s "disabled"))
          := rfl
      have hpres2 : (dictGet (some name)
          (classEntries (setStateAt idx "toggle" (some m) (.s "disabled"))
            "toggle")).isSome :=
        pres_setStateAt idx m name _ hpres
      constructor
      · intro hmem
        rcases List.mem_cons.mp hmem with heq | hmemL
        · subst heq
          by_cases hL : name ∈ L
          · rw [hstep]
            exact (ih _ hpres2).1 hL
          · rw [hstep, (ih _ hpres2).2 hL]
            exact toggleRawValue_setStateAt_hit idx name "disabled" hpres
        · rw [hstep]
          exact (ih _ hpres2).1 hmemL
      · intro hnot
        have hm : name ≠ m := fun h => hnot (h ▸ List.mem_cons_self m L)
        have hL : name ∉ L := fun h => hnot (List.mem_cons_of_mem _ h)
        rw [hstep, (ih _ hpres2).2 hL]
        exact toggleRawValue_setStateAt_other idx m name hm _

/-- A name present in an inner class dict appears among its named keys. -/
theorem mem_filterMap_of_dictGet
    (inner : List (Option String × StateVal)) (name : String)
    (h : (dictGet (some name) inner).isSome) :
    name ∈ inner.filterMap (fun q => q.1) := by
  induction inner with
  | nil => simp [dictGet] at h
  | cons q rest ih =>
      obtain ⟨k1, sv1⟩ := q
      by_cases hk : k1 = some name
      · subst hk
        simp [List.filterMap_cons]
      · simp only [dictGet, if_neg hk] at h
        have hmem := ih h
        rcases k1 with _ | k
        · simpa [List.filterMap_cons] using hmem
        · simp [List.filterMap_cons]
          right
          simpa using hmem

/-- The accumulator survives the preset-modes fold. -/
theorem subset_foldl_presetStep (idx : StatesIdx) :
    ∀ acc : List String, acc ⊆ idx.foldl presetStep acc := by
  induction idx with
  | nil => exact fun acc => List.Subset.refl acc
  | cons p rest ih =>
      intro acc
      have h1 : acc ⊆ presetStep acc p := by
        unfold presetStep
        split
        · exact List.subset_append_left _ _
        · exact List.Subset.refl _
      exact h1.trans (ih (presetStep acc p))

/-- Every named instance of the toggle class dict lands in the
preset-modes fold. -/
theorem mem_foldl_presetStep (idx : StatesIdx) :
    ∀ (acc : List String) (inner : List (Option String × StateVal)),
      dictGet "toggle" idx = some inner →
      ∀ name, (dictGet (some name) inner).isSome →
        name ∈ idx.foldl presetStep acc := by
  induction idx with
  | nil =>
      intro acc inner h
      simp [dictGet] at h
  | cons p rest ih =>
      intro acc inner h name hpres
      obtain ⟨k1, l1⟩ := p
      by_cases hk : k1 = "toggle"
      · simp only [dictGet, if_pos hk] at h
        have hin : l1 = inner := Option.some.inj h
        have hstep : presetStep acc (k1, l1)
            = acc ++ l1.filterMap (fun q => q.1) := by
          unfold presetStep
          rw [if_pos hk]
        have hmem : name ∈ presetStep acc (k1, l1) := by
          rw [hstep, hin]
          exact List.mem_append_right _
            (mem_filterMap_of_dictGet inner name hpres)
        exact subset_foldl_presetStep rest (presetStep acc (k1, l1)) hmem
      · simp only [dictGet, if_neg hk] at h
        exact ih (presetStep acc (k1, l1)) inner h name hpres

/-- Every present named toggle instance is one of the derived preset
modes. -/
theorem mem_presetModes (idx : StatesIdx) (name : String)
    (hpres : (dictGet (some name) (classEntries idx "toggle")).isSome) :
    name ∈ presetModes idx := by
  rcases hD : dictGet "toggle" idx with _ | inner
  · exfalso
    unfold classEntries at hpres
    rw [hD] at hpres
    simp [dictGet] at hpres
  · have hpres2 : (dictGet (some name) inner).isSome := by
      unfold classEntries at hpres
      rw [hD] at hpres
      exact hpres
    have hmemB : name ∈ presetModesBase idx :=
      mem_foldl_presetStep idx [] inner hD name hpres2
    unfold presetModes
    split
    · rename_i hEmpty
      rw [List.isEmpty_iff] at hEmpty
      rw [hEmpty] at hmemB
      exact absurd hmemB (List.not_mem_nil _)
    · exact List.mem_cons_of_mem _ hmemB

/-- Claim C5: the active preset is the first named toggle instance whose
raw value is enabled, or the literal "auto" when none is; setting preset
"auto" disables every present named toggle instance, and setting any
other present name enables that instance. -/
theorem claim_C5 :
    presetMode (setStates c5Values) = "Eco" ∧
      presetMode (setStates c5AllDisabled) = "auto" ∧
      (∀ (idx : StatesIdx) (name : String),
        (dictGet (some name) (classEntries idx "toggle")).isSome →
          toggleRawValue (setPresetMode idx "auto") name
            = some (some (.s "disabled"))) ∧
      (∀ (idx : StatesIdx) (mode : String), mode ≠ "auto" →
        (dictGet (some mode) (classEntries idx "toggle")).isSome →
          toggleRawValue (setPresetMode idx mode) mode
            = some (some (.s "enabled"))) := by
  refine ⟨rfl, rfl, ?_, ?_⟩
  · intro idx name hpres
    have hauto : setPresetMode idx "auto" = foldDisable (presetModes idx) idx
        := rfl
    rw [hauto]
    exact (foldDisable_spec (presetModes idx) idx name hpres).1
      (mem_presetModes idx name hpres)
  · intro idx mode hmode hpres
    have hset : setPresetMode idx mode
        = setStateAt idx "toggle" (some mode) (.s "enabled") := by
      unfold setPresetMode
      rw [if_neg hmode]
    rw [hset]
    exact toggleRawValue_setStateAt_hit idx mode "enabled" hpres

/-- Witness for claim C5 at the Comfort/Eco example entries. -/
theorem claim_C5_witness :
    toggleRawValue (setPresetMode (setStates c5Values) "auto") "Eco"
        = some (some (.s "disabled")) ∧
      toggleRawValue (setPresetMode (setStates c5Values) "Comfort")
          "Comfort" = some (some (.s "enabled")) :=
  ⟨claim_C5.2.2.1 (setStates c5Values) "Eco" (by decide),
    claim_C5.2.2.2 (setStates c5Values) "Comfort" (by decide) (by decide)⟩

/-- Counterexample to claim C6 as stated: with two same-class no-instance
entries, the lookup does not return the first-seen decoded value with a
warning — the second entry has overwritten the first. -/
theorem claim_C6_cex :
    ¬ ((getStateNoInst baseHassValue (setStates [c6First, c6Second])
          "power" none).1 = baseHassValue c6First ∧
        (getStateNoInst baseHassValue (setStates [c6First, c6Second])
          "power" none).2 = true) := by
  decide

/-- Claim C6 amended: when two entries share a function class and both
carry no instance key, the second overwrites the first under the shared
dict key, so the lookup returns the last-seen decoded value, does not
raise, and the ambiguity warning does not fire. -/
theorem claim_C6_amended (v1 v2 : StateVal) (fc : String)
    (h1 : svClass v1 = fc) (h2 : svClass v2 = fc)
    (hfc : fc ≠ unsupportedClass)
    (hi1 : v1.functionInstance = none) (hi2 : v2.functionInstance = none) :
    getStateNoInst baseHassValue (setStates [v1, v2]) fc none
      = (baseHassValue v2, false) := by
  have hstep1 : setStateStep [] v1 = [(fc, [(none, v1)])] := by
    unfold setStateStep
    rw [h1, if_neg hfc, hi1]
    rfl
  have hstep2 : setStateStep [(fc, [(none, v1)])] v2
      = [(fc, [(none, v2)])] := by
    unfold setStateStep
    rw [h2, if_neg hfc, hi2]
    simp [dictGet, dictInsert]
  have hss : setStates [v1, v2] = [(fc, [(none, v2)])] := by
    unfold setStates
    simp [List.foldl, hstep1, hstep2]
  rw [hss]
  unfold getStateNoInst classEntries
  simp [dictGet]

/-- Witness for claim C6 amended at the two concrete power entries. -/
theorem claim_C6_witness :
    getStateNoInst baseHassValue (setStates [c6First, c6Second])
      "power" none = (baseHassValue c6Second, false) :=
  claim_C6_amended c6First c6Second "power" rfl rfl (by decide) rfl rfl

/-- Claim C9 is a code bug, evaluated here at the failing input: when the
fetch raises, the except clause of `_async_update_data` names the builtin
`any`, so the result is a TypeError, never the UpdateFailed the spec and
the code text intend; the host framework still retains the previous
snapshot on the failed cycle. -/
theorem claim_C9 (c : CoordState) (e : PyErr) :
    asyncUpdateData (.error e) = .error .typeErrorNotExcClass ∧
      (∀ msg, asyncUpdateData (.error e) ≠ .error (.updateFailed msg)) ∧
      (coordinatorRefresh c (asyncUpdateData (.error e))).data = c.data := by
  refine ⟨rfl, fun msg h => ?_, rfl⟩
  exact absurd (Except.error.inj h) (by simp)

/-- Claim C10: `children` is one class-level list shared by every
instance; after `d1.addChild(c)` the child is also in the children of any
other instance whose own dict has no `children` entry (which `__init__`
never creates). -/
theorem claim_C10 (h : RawDeviceHeap) (d1 d2 c : DeviceRef) (hd : d1 ≠ d2)
    (h1 : h.ownChildren d1 = none) (h2 : h.ownChildren d2 = none) :
    childrenOf (addChild h d1 c) d2 = childrenOf h d2 ++ [c] ∧
      c ∈ childrenOf (addChild h d1 c) d2 := by
  have haddeq : addChild h d1 c
      = { h with classChildren := h.classChildren ++ [c] } := by
    unfold addChild
    rw [h1]
  refine ⟨?_, ?_⟩ <;> rw [haddeq] <;> unfold childrenOf <;> simp [h2]

/-- Witness for claim C10 at a fresh heap and two distinct instances. -/
theorem claim_C10_witness :
    childrenOf (addChild emptyHeap 0 5) 1 = childrenOf emptyHeap 1 ++ [5] ∧
      5 ∈ childrenOf (addChild emptyHeap 0 5) 1 :=
  claim_C10 emptyHeap 0 1 5 (by decide) rfl rfl

end HubspaceModel
